import Mathlib

/-!
Verification of `src/supervised_learning/logistic_regression.py`.

Shallow embedding conventions:
- numpy 1-D arrays are `List ℚ`, 2-D arrays are `List (List ℚ)` (rows).
  Float arithmetic is idealised as exact rational arithmetic; the
  transcendental primitives `np.exp` and `np.log` are external library
  calls and are abstracted as function parameters `expf lg : ℚ → ℚ`.
- For the one claim that is about non-finite float values (log of zero),
  a second numeric carrier `NFloat` models the IEEE special values
  `inf`, `-inf`, `nan` exactly at the boundary cases the claim concerns,
  while finite-by-finite arithmetic stays exact rational.
- Python exceptions are modelled with `Except PyErr`.
-/

/-- Python exceptions that the embedded code can raise, plus the dedicated
`unfittedModel` condition that the specification demands (the source never
raises it; it is needed to state the spec's claim). -/
inductive PyErr where
  | typeError
  | valueError
  | indexError
  | unfittedModel
deriving DecidableEq

/-- The `Optimizer.Status` enumeration from `optimization_algorithms/optimizer.py`
(modelled from the spec: that file is not under `src/`; the spec gives the
enumeration {CONVERGED, MAX_ITERATIONS_REACHED, DIVERGED}). -/
inductive OptimizerStatus where
  | CONVERGED
  | MAX_ITERATIONS_REACHED
  | DIVERGED
deriving DecidableEq

/-- Dot product of two 1-D arrays: `np.dot(a, b)` for equal-length vectors. -/
def dotList (a b : List ℚ) : ℚ :=
  (List.zipWith (fun x y => x * y) a b).sum

/-- Model of `np.dot(X, theta)` for a 2-D `X` and a 1-D `theta`, where `theta` may be
the Python value `None` (as `predict` passes `self._weights` unchecked):
- `theta = None`: numpy treats `None` as a 0-d object array and multiplies
  elementwise, so each `float * None` raises `TypeError`;
- shape mismatch between a row of `X` and `theta`: numpy raises
  `ValueError` ("shapes not aligned") before computing any product;
- otherwise the row-wise dot products. -/
def npDot (X : List (List ℚ)) (theta : Option (List ℚ)) :
    Except PyErr (List ℚ) :=
  match theta with
  | none => Except.error PyErr.typeError
  | some th =>
    if X.all (fun r => r.length == th.length) then
      Except.ok (X.map (fun r => dotList r th))
    else
      Except.error PyErr.valueError

/-- Model of `np.dot(X.T, v)`: entry `j` is `Σ_i X[i][j] * v[i]` (rectangular `X`). -/
def npDotTV (X : List (List ℚ)) (v : List ℚ) : List ℚ :=
  (List.range ((X.head?.map List.length).getD 0)).map
    (fun j => dotList (X.map (fun r => r.getD j 0)) v)

/-- Model of `np.insert(X, 0, 1, axis=1)`: prepend a constant-1 bias column.
numpy returns a fresh array; the caller's `X` is untouched (out-of-place). -/
def addBias (X : List (List ℚ)) : List (List ℚ) :=
  X.map (fun r => 1 :: r)

/-- Model of `np.shape(X)[1]`: the column count of a rectangular 2-D array. -/
def npShape1 (X : List (List ℚ)) : ℕ :=
  (X.head?.map List.length).getD 0

/-- The `Optimizer` capability contract from
`optimization_algorithms/optimizer.py` (modelled from the spec: that file is
not under `src/`). `optimize(X, y, initial_params, model_fn, cost_fn)`
returns `(final_params, status)`; per spec §4.1/§5 an optimizer touches only
call-local state, so it is a pure function of its arguments.
`converge_hints()` is the diagnostic exposed for non-convergent runs. -/
structure Optimizer where
  optimize : List (List ℚ) → List ℚ → List ℚ →
    (List (List ℚ) → List ℚ → Except PyErr (List ℚ)) →
    (List (List ℚ) → List ℚ → List ℚ → ℚ × List ℚ) →
    (List ℚ × OptimizerStatus)
  convergeHints : String

/-- The fields of a `LogisticRegression` instance: the injected optimizer and
the fitted state `_weights`, `_intercept`, `_coeff` (all `None` until `fit`). -/
structure LogisticRegression where
  _optimizer : Optimizer
  _weights : Option (List ℚ)
  _intercept : Option ℚ
  _coeff : Option (List ℚ)

/-- Embedding of `LogisticRegression.__init__(optimizer)`: stores the optimizer and sets
`_weights`, `_intercept`, `_coeff` to `None`. -/
def LogisticRegression.init (opt : Optimizer) : LogisticRegression :=
  ⟨opt, none, none, none⟩

/-- Embedding of `LogisticRegression._logistic_function(X, theta)`:
`value = np.dot(X, theta); return 1 / (1 + np.exp(-value))`, with `np.exp`
abstracted as `expf`. Propagates the `np.dot` exceptions. -/
def LogisticRegression._logistic_function (expf : ℚ → ℚ)
    (X : List (List ℚ)) (theta : Option (List ℚ)) : Except PyErr (List ℚ) :=
  (npDot X theta).map (fun value => value.map (fun v => 1 / (1 + expf (-v))))

/-- Embedding of `LogisticRegression._cost_function(X, pred, y)` over the exact-rational
carrier, `np.log` abstracted as `lg`:
`m = len(y)`;
`cost = 1/m * (-np.dot(y.T, np.log(pred)) - np.dot((1-y), np.log(1-pred)))`;
`gradient = 1/m * np.dot(X.T, (pred - y))`. -/
def LogisticRegression._cost_function (lg : ℚ → ℚ)
    (X : List (List ℚ)) (pred y : List ℚ) : ℚ × List ℚ :=
  let m : ℚ := (y.length : ℚ)
  let cost := 1 / m *
    (-(dotList y (pred.map lg)) -
      dotList (y.map (fun t => 1 - t)) ((pred.map (fun p => 1 - p)).map lg))
  let gradient := (npDotTV X (List.zipWith (fun p t => p - t) pred y)).map
    (fun g => 1 / m * g)
  (cost, gradient)

/-- Embedding of `LogisticRegression.fit(X, y)`:
adds the bias column, zero-initialises `_weights` to length
`np.shape(X_b)[1]`, calls `optimizer.optimize` with the logistic and cost
functions, warns (a `print`, non-fatal — modelled as a returned message
list) when the status is not `CONVERGED`, then stores
`_intercept = _weights[0]` (an `IndexError` if the returned vector is
empty) and `_coeff = _weights[1:]`. -/
def LogisticRegression.fit (expf lg : ℚ → ℚ) (model : LogisticRegression)
    (X : List (List ℚ)) (y : List ℚ) :
    Except PyErr (LogisticRegression × List String) :=
  let Xb := addBias X
  let numFeatures := npShape1 Xb
  let w0 : List ℚ := List.replicate numFeatures 0
  let res := model._optimizer.optimize Xb y w0
    (fun A th => LogisticRegression._logistic_function expf A (some th))
    (LogisticRegression._cost_function lg)
  let warns : List String :=
    if res.2 ≠ OptimizerStatus.CONVERGED then
      ["WARNING: Optimizer did not converge: " ++
        model._optimizer.convergeHints]
    else []
  match res.1 with
  | [] => Except.error PyErr.indexError
  | w :: ws =>
    Except.ok (⟨model._optimizer, some (w :: ws), some w, some ws⟩, warns)

/-- Embedding of `LogisticRegression.predict(X)`: adds the bias column and returns
`_logistic_function(X_b, self._weights)`; `self._weights` is passed as-is
(it is `None` before any fit). -/
def LogisticRegression.predict (expf : ℚ → ℚ) (model : LogisticRegression)
    (X : List (List ℚ)) : Except PyErr (List ℚ) :=
  let Xb := addBias X
  LogisticRegression._logistic_function expf Xb model._weights

/-- Embedding of `LogisticRegression.get_feature_params()`: returns `self._coeff`. -/
def LogisticRegression.get_feature_params (model : LogisticRegression) :
    Option (List ℚ) :=
  model._coeff

/-- A numpy double, refined to track the IEEE special values: a finite value
(kept exact as a rational), `inf`, `-inf`, or `nan`. -/
inductive NFloat where
  | fin (q : ℚ)
  | pinf
  | ninf
  | nan
deriving DecidableEq

/-- IEEE negation. -/
def NFloat.neg : NFloat → NFloat
  | .fin q => .fin (-q)
  | .pinf => .ninf
  | .ninf => .pinf
  | .nan => .nan

/-- IEEE addition (finite-by-finite kept exact; `inf + -inf = nan`;
`nan` propagates). -/
def NFloat.add : NFloat → NFloat → NFloat
  | .fin a, .fin b => .fin (a + b)
  | .fin _, .pinf => .pinf
  | .fin _, .ninf => .ninf
  | .pinf, .fin _ => .pinf
  | .ninf, .fin _ => .ninf
  | .pinf, .pinf => .pinf
  | .ninf, .ninf => .ninf
  | .pinf, .ninf => .nan
  | .ninf, .pinf => .nan
  | .nan, _ => .nan
  | _, .nan => .nan

/-- IEEE subtraction: `a - b = a + (-b)`. -/
def NFloat.sub (a b : NFloat) : NFloat :=
  a.add b.neg

/-- IEEE multiplication (`0 * ±inf = nan`; signs as usual; `nan`
propagates). -/
def NFloat.mul : NFloat → NFloat → NFloat
  | .fin a, .fin b => .fin (a * b)
  | .fin a, .pinf => if a > 0 then .pinf else if a < 0 then .ninf else .nan
  | .fin a, .ninf => if a > 0 then .ninf else if a < 0 then .pinf else .nan
  | .pinf, .fin b => if b > 0 then .pinf else if b < 0 then .ninf else .nan
  | .ninf, .fin b => if b > 0 then .ninf else if b < 0 then .pinf else .nan
  | .pinf, .pinf => .pinf
  | .ninf, .ninf => .pinf
  | .pinf, .ninf => .ninf
  | .ninf, .pinf => .ninf
  | .nan, _ => .nan
  | _, .nan => .nan

/-- Whether a numpy double is finite (`np.isfinite`). -/
def NFloat.isFinite : NFloat → Bool
  | .fin _ => true
  | _ => false

/-- Model of `np.dot` on two 1-D `NFloat` arrays: sum of elementwise products. -/
def nfDot (a b : List NFloat) : NFloat :=
  (List.zipWith NFloat.mul a b).foldr NFloat.add (.fin 0)

/-- Model of `np.log` elementwise on a numpy double: `log 0 = -inf` (numpy emits a
runtime warning and returns `-inf`), `log` of a negative value is `nan`,
`log inf = inf`, `log nan = nan`; on a finite positive value it returns the
finite double approximating the real logarithm, abstracted here as `lg`. -/
def nplog (lg : ℚ → ℚ) : NFloat → NFloat
  | .fin q => if q = 0 then .ninf else if q < 0 then .nan else .fin (lg q)
  | .pinf => .pinf
  | .ninf => .nan
  | .nan => .nan

/-- Embedding of `LogisticRegression._cost_function(X, pred, y)` over the `NFloat`
carrier, tracking the IEEE special values that the exact-rational embedding
cannot express; same expression as the source:
`cost = 1/m * (-np.dot(y.T, np.log(pred)) - np.dot((1-y), np.log(1-pred)))`;
`gradient = 1/m * np.dot(X.T, (pred - y))`. -/
def costFunctionNF (lg : ℚ → ℚ) (X : List (List NFloat))
    (pred y : List NFloat) : NFloat × List NFloat :=
  let m : ℚ := (y.length : ℚ)
  let oneOverM : NFloat := .fin (1 / m)
  let cost := oneOverM.mul
    ((NFloat.neg (nfDot y (pred.map (nplog lg)))).sub
      (nfDot (y.map (fun t => (NFloat.fin 1).sub t))
        ((pred.map (fun p => (NFloat.fin 1).sub p)).map (nplog lg))))
  let predSubY := List.zipWith NFloat.sub pred y
  let gradient := (List.range ((X.head?.map List.length).getD 0)).map
    (fun j => oneOverM.mul
      (nfDot (X.map (fun r => r.getD j (.fin 0))) predSubY))
  (cost, gradient)

/-- The spec's model function, written from the spec's words for the
refinement claim: `logistic_fn(X, theta) = 1 / (1 + exp(-(X·theta)))`,
the sigmoid of the linear combination, elementwise over the rows of `X`. -/
def logisticFnSpec (expf : ℚ → ℚ) (X : List (List ℚ)) (theta : List ℚ) :
    List ℚ :=
  X.map (fun r => 1 / (1 + expf (-(dotList r theta))))

/-- The spec's cost, written from the spec's words for the refinement claim:
`-(1/m)·(yᵗ·log(pred) + (1-y)ᵗ·log(1-pred))`. -/
def costSpec (lg : ℚ → ℚ) (pred y : List ℚ) : ℚ :=
  let m : ℚ := (y.length : ℚ);
  -(1 / m) *
    (dotList y (pred.map lg) +
      dotList (y.map (fun t => 1 - t)) ((pred.map (fun p => 1 - p)).map lg))

/-- The spec's gradient, written from the spec's words for the refinement
claim: `(1/m)·Xᵗ·(pred - y)`. -/
def gradSpec (X : List (List ℚ)) (pred y : List ℚ) : List ℚ :=
  let m : ℚ := (y.length : ℚ)
  (npDotTV X (List.zipWith (fun p t => p - t) pred y)).map (fun g => 1 / m * g)

/-- A concrete optimizer used to instantiate theorems on concrete inputs:
returns the initial parameters unchanged with status `CONVERGED`. -/
def trivOpt : Optimizer :=
  ⟨fun _ _ w _ _ => (w, OptimizerStatus.CONVERGED), "cost delta 0 after 0 iterations"⟩

/-- C10: on an instance on which `fit` has never been called,
`get_feature_params()` returns `None` (`_coeff` is still its `__init__`
value); it neither raises nor returns a vector. -/
theorem get_feature_params_before_fit (opt : Optimizer) :
    LogisticRegression.get_feature_params (LogisticRegression.init opt) =
      none := rfl

/-- C1 (counterexample to the claim as stated): before any fit, `predict`
does not fail with a dedicated "unfitted model" condition — the failure is
the `TypeError` that `np.dot` raises on the `None` weights. -/
theorem predict_unfitted_not_clear_error :
    LogisticRegression.predict id (LogisticRegression.init trivOpt)
        [[(1 : ℚ)]] ≠
      Except.error PyErr.unfittedModel := by
  simp [LogisticRegression.predict, LogisticRegression.init,
    LogisticRegression._logistic_function, npDot, Except.map]

/-- C1 (amended): for every feature matrix `X`, calling `predict(X)` before
any successful `fit` fails — no probability vector is computed on the absent
parameters — but with the generic `TypeError` arising from `np.dot(X, None)`
inside `_logistic_function`, not with a dedicated unfitted-model error. -/
theorem predict_unfitted_fails (expf : ℚ → ℚ) (opt : Optimizer)
    (X : List (List ℚ)) :
    LogisticRegression.predict expf (LogisticRegression.init opt) X =
      Except.error PyErr.typeError := rfl

/-- C5: for matching shapes, the model function returns elementwise
`1 / (1 + exp(-(X·theta)))`, the sigmoid of the linear combination — and it
is a pure function of `(X, theta)` alone (it takes no instance state in the
embedding, mirroring the `@staticmethod`-style use in the source). -/
theorem logistic_function_matches_spec (expf : ℚ → ℚ)
    (X : List (List ℚ)) (theta : List ℚ)
    (h : ∀ r ∈ X, r.length = theta.length) :
    LogisticRegression._logistic_function expf X (some theta) =
      Except.ok (logisticFnSpec expf X theta) := by
  have hall : (X.all fun r => r.length == theta.length) = true := by
    simp only [List.all_eq_true, beq_iff_eq]
    exact h
  simp [LogisticRegression._logistic_function, npDot, logisticFnSpec, hall,
    Except.map, List.map_map]

/-- Witness for C5 at a concrete input. -/
theorem logistic_function_matches_spec_witness :
    (∀ r ∈ [[(1 : ℚ)]], r.length = [(2 : ℚ)].length) ∧
    LogisticRegression._logistic_function id [[(1 : ℚ)]] (some [2]) =
      Except.ok (logisticFnSpec id [[(1 : ℚ)]] [2]) :=
  ⟨by decide, logistic_function_matches_spec id [[(1 : ℚ)]] [2] (by decide)⟩

/-- C8: the bias augmentation invariant. `addBias` prepends a constant-1
column exactly once: every row of `addBias X` starts with `1` and dropping
that first entry restores `X` — so the caller's `X` is unchanged
(`np.insert` is out-of-place; the embedding is pure). Moreover each
`predict` call hands the model function exactly `addBias X` (one
augmentation per call), and each `fit` call hands the optimizer — and hence
the model function — exactly `addBias X` (one augmentation per call). -/
theorem bias_column_prepended_once (expf lg : ℚ → ℚ) (opt : Optimizer)
    (w? : Option (List ℚ)) (i : Option ℚ) (c : Option (List ℚ))
    (X : List (List ℚ)) (y : List ℚ) :
    (addBias X).map List.head? = X.map (fun _ => some (1 : ℚ)) ∧
    (addBias X).map List.tail = X ∧
    LogisticRegression.predict expf ⟨opt, w?, i, c⟩ X =
      LogisticRegression._logistic_function expf (addBias X) w? ∧
    LogisticRegression.fit expf lg ⟨opt, w?, i, c⟩ X y =
      (let res := opt.optimize (addBias X) y
          (List.replicate (npShape1 (addBias X)) 0)
          (fun A th => LogisticRegression._logistic_function expf A (some th))
          (LogisticRegression._cost_function lg);
        match res.1 with
        | [] => Except.error PyErr.indexError
        | w :: ws =>
          Except.ok (⟨opt, some (w :: ws), some w, some ws⟩,
            if res.2 ≠ OptimizerStatus.CONVERGED then
              ["WARNING: Optimizer did not converge: " ++ opt.convergeHints]
            else [])) := by
  refine ⟨?_, ?_, rfl, rfl⟩
  · induction X with
    | nil => rfl
    | cons r rs ih => simpa [addBias] using ih
  · induction X with
    | nil => rfl
    | cons r rs ih => simpa [addBias] using ih

/-- C3: if some row of `X` has a feature count different from the one the
model was fitted on (`X` row length + bias ≠ stored weight length), then
`predict` fails with the `ValueError` that numpy's shape check raises, and
no dot product (hence no probability) is ever computed. -/
theorem predict_shape_mismatch_fails (expf : ℚ → ℚ) (opt : Optimizer)
    (w : List ℚ) (i : Option ℚ) (c : Option (List ℚ)) (X : List (List ℚ))
    (h : ∃ r ∈ X, r.length + 1 ≠ w.length) :
    LogisticRegression.predict expf ⟨opt, some w, i, c⟩ X =
      Except.error PyErr.valueError := by
  obtain ⟨r, hr, hlen⟩ := h
  have hall : ¬ ((addBias X).all fun rr => rr.length == w.length) = true := by
    simp only [List.all_eq_true, beq_iff_eq]
    push_neg
    refine ⟨1 :: r, ?_, by simpa using hlen⟩
    simpa [addBias] using List.mem_map_of_mem (fun rr => 1 :: rr) hr
  simp [LogisticRegression.predict, LogisticRegression._logistic_function,
    npDot, hall, Except.map]

/-- Witness for C3 at a concrete input: a model fitted on 1 feature
(2 weights) queried with 2 features per row. -/
theorem predict_shape_mismatch_fails_witness :
    (∃ r ∈ [[(1 : ℚ), 1]], r.length + 1 ≠ [(0 : ℚ), 0].length) ∧
    LogisticRegression.predict id ⟨trivOpt, some [0, 0], none, none⟩
        [[(1 : ℚ), 1]] =
      Except.error PyErr.valueError :=
  ⟨by decide,
    predict_shape_mismatch_fails id trivOpt [0, 0] none none [[(1 : ℚ), 1]]
      (by decide)⟩

/-- C4: for a nonempty label vector (Python's `1/m` would raise
`ZeroDivisionError` on an empty one), `_cost_function` returns exactly the
spec's pair: cost `-(1/m)·(yᵗ·log(pred) + (1-y)ᵗ·log(1-pred))` and gradient
`(1/m)·Xᵗ·(pred - y)`; the code's `1/m * (-a - b)` is the spec's
`-(1/m)·(a + b)`. -/
theorem cost_function_matches_spec (lg : ℚ → ℚ) (X : List (List ℚ))
    (pred y : List ℚ) (_hm : y ≠ []) :
    LogisticRegression._cost_function lg X pred y =
      (costSpec lg pred y, gradSpec X pred y) := by
  unfold LogisticRegression._cost_function costSpec gradSpec
  refine Prod.ext ?_ rfl
  ring

/-- Witness for C4 at a concrete input. -/
theorem cost_function_matches_spec_witness :
    ([(1 : ℚ)] ≠ ([] : List ℚ)) ∧
    LogisticRegression._cost_function id [[(1 : ℚ), 1]] [1/2] [1] =
      (costSpec id [1/2] [1], gradSpec [[(1 : ℚ), 1]] [1/2] [1]) :=
  ⟨by decide, cost_function_matches_spec id [[(1 : ℚ), 1]] [1/2] [1]
    (by decide)⟩

/-- C6: on a nonempty dataset, provided the optimizer returns a nonempty
parameter vector (its contract: same shape as the zero initialisation),
`fit` prepends the bias column, initialises the weights to the zero vector
of length (features + 1), passes exactly `(addBias X, y, zeros,
logistic_fn, cost_fn)` to the injected optimizer, stores the returned
weights with intercept `weights[0]` and coefficients `weights[1:]`, and on
a status other than `CONVERGED` returns normally (no exception) carrying a
warning message that includes `converge_hints()`. -/
theorem fit_contract (expf lg : ℚ → ℚ) (model : LogisticRegression)
    (x0 : List ℚ) (Xr : List (List ℚ)) (y : List ℚ)
    (res : List ℚ × OptimizerStatus)
    (hres : model._optimizer.optimize (addBias (x0 :: Xr)) y
        (List.replicate (x0.length + 1) 0)
        (fun A th => LogisticRegression._logistic_function expf A (some th))
        (LogisticRegression._cost_function lg) = res)
    (hw : res.1 ≠ []) :
    LogisticRegression.fit expf lg model (x0 :: Xr) y =
      Except.ok
        (⟨model._optimizer, some res.1, res.1.head?, some (res.1.drop 1)⟩,
          if res.2 ≠ OptimizerStatus.CONVERGED then
            ["WARNING: Optimizer did not converge: " ++
              model._optimizer.convergeHints]
          else []) := by
  have hshape : npShape1 (addBias (x0 :: Xr)) = x0.length + 1 := by
    simp [npShape1, addBias]
  obtain ⟨w, st⟩ := res
  cases w with
  | nil => exact absurd rfl hw
  | cons a as =>
    simp only [LogisticRegression.fit, hshape, hres, List.head?_cons,
      List.drop_succ_cons, List.drop_zero]

/-- Witness for C6 at a concrete input (via `trivOpt`, which converges and
returns the zero initialisation unchanged). -/
theorem fit_contract_witness :
    ((List.replicate 2 (0 : ℚ), OptimizerStatus.CONVERGED).1 ≠ []) ∧
    LogisticRegression.fit id id (LogisticRegression.init trivOpt)
        [[(1 : ℚ)]] [1] =
      Except.ok (⟨trivOpt, some [0, 0], some 0, some [0]⟩, []) := by
  refine ⟨by decide, ?_⟩
  have h := fit_contract id id (LogisticRegression.init trivOpt) [1] [] [1]
    (List.replicate 2 0, OptimizerStatus.CONVERGED) rfl (by decide)
  simpa [LogisticRegression.init, List.replicate] using h

/-- Helper: `fit` reads only `_optimizer` from the instance — `_weights` is
reassigned to the zero vector before its old value could be used, and
`_intercept`/`_coeff` are written, never read. -/
theorem fit_ignores_fitted_state (expf lg : ℚ → ℚ) (o : Optimizer)
    (w w' : Option (List ℚ)) (i i' : Option ℚ) (c c' : Option (List ℚ))
    (X : List (List ℚ)) (y : List ℚ) :
    LogisticRegression.fit expf lg ⟨o, w, i, c⟩ X y =
      LogisticRegression.fit expf lg ⟨o, w', i', c'⟩ X y := rfl

/-- Helper: a successful `fit` stores back the same optimizer instance. -/
theorem fit_ok_optimizer (expf lg : ℚ → ℚ) (m : LogisticRegression)
    (X : List (List ℚ)) (y : List ℚ) (r : LogisticRegression × List String)
    (h : LogisticRegression.fit expf lg m X y = Except.ok r) :
    r.1._optimizer = m._optimizer := by
  obtain ⟨r1, r2⟩ := r
  rcases hres : (m._optimizer.optimize (addBias X) y
      (List.replicate (npShape1 (addBias X)) 0)
      (fun A th => LogisticRegression._logistic_function expf A (some th))
      (LogisticRegression._cost_function lg)).1 with - | ⟨a, as⟩ <;>
    simp only [LogisticRegression.fit, hres] at h
  · exact absurd h (by simp)
  · rw [Except.ok.injEq, Prod.mk.injEq] at h
    rw [← h.1]

/-- C9: fitting a second dataset after a first fit yields exactly the state
a fresh instance with the same optimizer gets from fitting the second
dataset alone — the second `fit` overwrites the first completely (the whole
result, message list included, coincides). -/
theorem fit_twice_equals_fresh_fit (expf lg : ℚ → ℚ) (opt : Optimizer)
    (X1 : List (List ℚ)) (y1 : List ℚ) (X2 : List (List ℚ)) (y2 : List ℚ)
    (r1 : LogisticRegression × List String)
    (h1 : LogisticRegression.fit expf lg (LogisticRegression.init opt) X1
      y1 = Except.ok r1) :
    LogisticRegression.fit expf lg r1.1 X2 y2 =
      LogisticRegression.fit expf lg (LogisticRegression.init opt) X2 y2 := by
  have hopt : r1.1._optimizer = opt :=
    fit_ok_optimizer expf lg _ X1 y1 r1 h1
  obtain ⟨⟨o, w, i, c⟩, msgs⟩ := r1
  cases hopt
  exact fit_ignores_fitted_state expf lg o w none i none c none X2 y2

/-- Witness for C9 at a concrete input. -/
theorem fit_twice_equals_fresh_fit_witness :
    (LogisticRegression.fit id id (LogisticRegression.init trivOpt)
        [[(1 : ℚ)]] [1] =
      Except.ok (⟨trivOpt, some [0, 0], some 0, some [0]⟩, [])) ∧
    LogisticRegression.fit id id
        (⟨trivOpt, some [0, 0], some 0, some [0]⟩ : LogisticRegression)
        [[(2 : ℚ)]] [1] =
      LogisticRegression.fit id id (LogisticRegression.init trivOpt)
        [[(2 : ℚ)]] [1] := by
  have h1 : LogisticRegression.fit id id (LogisticRegression.init trivOpt)
      [[(1 : ℚ)]] [1] =
      Except.ok (⟨trivOpt, some [0, 0], some 0, some [0]⟩, []) := by
    simp [LogisticRegression.fit, LogisticRegression.init, trivOpt,
      addBias, npShape1, List.replicate]
  exact ⟨h1,
    fit_twice_equals_fresh_fit id id trivOpt [[(1 : ℚ)]] [1] [[(2 : ℚ)]] [1]
      _ h1⟩

/-- C2 (the code at the failing input): `_cost_function` does not clip —
with the bias-augmented row `X = [[1, 1]]`, predictions `pred = [0.0]`
(a prediction saturated to exactly 0) and labels `y = [1]`, the cost is
`1/1 * (-(1 · log 0) - (0 · log 1)) = -(-inf) = +inf`, not finite,
whichever finite values the float logarithm takes on positive inputs. -/
theorem cost_function_log_zero_not_finite (lg : ℚ → ℚ) :
    (costFunctionNF lg [[.fin 1, .fin 1]] [.fin 0] [.fin 1]).1 =
        NFloat.pinf ∧
      NFloat.pinf.isFinite = false := by
  refine ⟨?_, rfl⟩
  norm_num [costFunctionNF, nfDot, nplog, NFloat.sub, NFloat.add,
    NFloat.neg, NFloat.mul]
